import Mathlib

/-!
Verification of the in-memory agent manager of `demo/ui`:
`service/server/in_memory_manager.py` (class `InMemoryFakeAgentManager`)
and `utils/agent_card.py` (`get_agent_card`).

The Python code is embedded shallowly:
* pydantic models become Lean structures;
* dict metadata becomes an association list `List (String × String)`;
* the network calls (`client.send_task`, the LLM invocation and the
  agent-card HTTP fetch) and the uuid / timestamp generators are inputs,
  collected in a `DispatchEnv` (resp. a `FetchOutcome`);
* exceptions raised across the embedded boundary become `Except` results
  or explicit outcome constructors.
-/

namespace A2A

/-- Association-list lookup, the embedding of `d[k]` / `d.get(k)` on a
Python dict whose keys are unique. -/
def dictGet (d : List (String × String)) (k : String) : Option String :=
  (d.find? (fun p => p.1 == k)).map (fun p => p.2)

/-- Association-list assignment, the embedding of `d[k] = v` (and of the
merge `{**d, **{k: v}}`, which keeps every other key of `d` and overrides
`k`): the binding of `k` is replaced in place if present, appended
otherwise. -/
def dictSet (d : List (String × String)) (k v : String) : List (String × String) :=
  if (d.find? (fun p => p.1 == k)).isSome then
    d.map (fun p => if p.1 == k then (k, v) else p)
  else
    d ++ [(k, v)]

/-- A content part of a message (`common.types.TextPart` / `DataPart` /
`FilePart`); only the text/non-text distinction and the text payload are
observed by the manager. -/
inductive Part where
  | text (text : String)
  | data (payload : String)
  | file (payload : String)
deriving DecidableEq, Repr

/-- The embedding of `part.type` (the pydantic discriminator field). -/
def Part.type : Part → String
  | .text _ => "text"
  | .data _ => "data"
  | .file _ => "file"

/-- `common.types.Message`: role, ordered parts, metadata dict.  A message
freshly constructed by the manager (`Message(role=..., parts=[...])`) has
empty metadata; the reconciliation step overwrites the response's metadata
wholesale, so `[]` stands for Python's `None`. -/
structure Message where
  role : String
  parts : List Part
  metadata : List (String × String) := []
deriving DecidableEq, Repr

/-- `common.types.TaskState` values used by the manager. -/
inductive TaskState where
  | submitted
  | working
  | input_required
  | completed
  | error
  | canceled
deriving DecidableEq, Repr

/-- `common.types.JSONRPCError` (only code and message are observed). -/
structure JSONRPCError where
  code : Int
  message : String
deriving DecidableEq, Repr

/-- `common.types.TaskStatus`. -/
structure TaskStatus where
  state : TaskState
  message : Option Message := none
  error : Option JSONRPCError := none
deriving DecidableEq, Repr

/-- `common.types.Artifact` (only `parts` is observed by the manager). -/
structure Artifact where
  parts : List Part
deriving DecidableEq, Repr

/-- `common.types.Task`.  `history = []` also stands for Python's
`history = None` (only truthiness, last element and length are observed);
`artifacts` keeps the `Optional` so that `some []` and `none` are both
falsy but distinguishable, as in the source. -/
structure Task where
  id : String
  sessionId : Option String := none
  status : TaskStatus
  history : List Message := []
  artifacts : Option (List Artifact) := none
deriving DecidableEq, Repr

/-- `common.types.AgentCard` (fields the manager observes).  An empty
`url` stands for a missing / falsy url (`if not card.url`). -/
structure AgentCard where
  name : String
  url : String := ""
deriving DecidableEq, Repr

/-- `service.types.Conversation`. -/
structure Conversation where
  conversation_id : String
  is_active : Bool
  messages : List Message := []
deriving DecidableEq, Repr

/-- `service.types.Event`; the float timestamp is abstracted to `Nat`. -/
structure Event where
  id : String
  actor : String
  content : Message
  timestamp : Nat
deriving DecidableEq, Repr

/-- The JSON-RPC envelope returned by `client.send_task`: an optional
protocol error and an optional task snapshot. -/
structure SendTaskResponse where
  error : Option JSONRPCError := none
  result : Option Task := none
deriving DecidableEq, Repr

/-- Outcome of the awaited `client.send_task` call (including the
possibility that the call raised). -/
inductive SendOutcome where
  | response (r : SendTaskResponse)
  | raised (e : String)
deriving DecidableEq, Repr

/-- Outcome of the awaited `self._llm.ainvoke(prompt)` call. -/
inductive LlmOutcome where
  | ok (text : String)
  | raised (e : String)
deriving DecidableEq, Repr

/-- The effect environment of one `process_message` call: the uuids the
code mints (`task_id`, two event ids, the response's new `message_id`),
the two `datetime.utcnow().timestamp()` readings, and the outcomes of the
external calls (at most one of `send` / `llm` is consulted, depending on
the route taken). -/
structure DispatchEnv where
  task_id : String
  host_event_id : String
  agent_event_id : String
  response_message_id : String
  host_timestamp : Nat
  agent_timestamp : Nat
  send : SendOutcome
  llm : LlmOutcome
deriving DecidableEq, Repr

/-- The mutable fields of `InMemoryFakeAgentManager`; `llm` records
whether `self._llm` is configured (`is not None`). -/
structure ManagerState where
  conversations : List Conversation := []
  messages : List Message := []
  tasks : List Task := []
  events : List Event := []
  pending_message_ids : List String := []
  agents : List AgentCard := []
  task_map : List (String × String) := []
  llm : Bool := false
deriving DecidableEq, Repr

/-- `get_conversation`: `None` for a null/empty id, else the first
conversation with a matching id. -/
def get_conversation (convs : List Conversation) (conversation_id : Option String) :
    Option Conversation :=
  match conversation_id with
  | none => none
  | some cid =>
    if cid == "" then none
    else convs.find? (fun c => c.conversation_id == cid)

/-- Appending a message to the conversation object that
`get_conversation` returned: since that object is the first one with the
matching id, the in-place mutation is the replacement of the first match. -/
def appendToConv : List Conversation → String → Message → List Conversation
  | [], _, _ => []
  | c :: cs, cid, m =>
    if c.conversation_id == cid then { c with messages := c.messages ++ [m] } :: cs
    else c :: appendToConv cs cid m

/-- `if conversation: conversation.messages.append(m)`: a no-op when
`get_conversation` found nothing. -/
def appendIfConv (convs : List Conversation) (conv : Option Conversation) (m : Message) :
    List Conversation :=
  match conv with
  | some c => appendToConv convs c.conversation_id m
  | none => convs

/-- `add_task`: appends. -/
def add_task (tasks : List Task) (task : Task) : List Task :=
  tasks ++ [task]

/-- `update_task`: replaces the first stored task with the same id and
returns; if no id matches, the loop falls through and nothing changes. -/
def update_task : List Task → Task → List Task
  | [], _ => []
  | t :: ts, task =>
    if t.id == task.id then task :: ts
    else t :: update_task ts task

/-- `isinstance(part, TextPart)`. -/
def isTextPart : Part → Bool
  | .text _ => true
  | _ => false

/-- The artifact scan of the dispatcher: first artifact (in order) whose
parts contain a `TextPart`, first such part within it.  The guard
`if artifact.parts:` of the source is subsumed by `find?` on an empty
list returning `none`. -/
def firstTextPart (arts : List Artifact) : Option Part :=
  arts.findSome? (fun a => a.parts.find? isTextPart)

/-- `if response.role != "agent": response.role = "agent"`. -/
def forceAgentRole (m : Message) : Message :=
  if m.role ≠ "agent" then { m with role := "agent" } else m

/-- The branch chain on a successful result after the INPUT_REQUIRED
check failed: history, then artifacts, then the "no messages or
artifacts" fallback (lines 196-234 of `in_memory_manager.py`). -/
def interpretNonInput (task_result task : Task) : Message × Task :=
  match task_result.history.getLast? with
  | some last =>
    (last,
     { task with status := { task.status with state := .completed },
                 artifacts := task_result.artifacts })
  | none =>
    match task_result.artifacts with
    | some (a :: rest) =>
      match firstTextPart (a :: rest) with
      | some p =>
        ({ role := "agent", parts := [p] },
         { task with status := { task.status with state := .completed },
                     artifacts := task_result.artifacts })
      | none =>
        ({ role := "agent",
           parts := [Part.text "Agent returned data, but not in a displayable text format."] },
         { task with status := { task.status with state := .completed },
                     artifacts := task_result.artifacts })
    | _ =>
      ({ role := "agent",
         parts := [Part.text "Agent processed the request but returned no messages or artifacts."] },
       { task with status := { task.status with state := .completed } })

/-- Interpretation of a present `task_response.result` (lines 180-234):
the INPUT_REQUIRED-with-status-message branch has strict precedence; the
truthiness of `task_result.status` always holds since `status` is a
required field. -/
def interpretResult (task_result task : Task) : Message × Task :=
  if task_result.status.state = TaskState.input_required then
    match task_result.status.message with
    | some m =>
      (forceAgentRole m,
       { task with status := { task.status with state := .input_required },
                   artifacts := task_result.artifacts })
    | none => interpretNonInput task_result task
  else interpretNonInput task_result task

/-- The routing section of `process_message` (lines 131-254): given the
registered agents, whether an LLM is configured, the environment and the
freshly created task, produce the response and the updated task.  Every
branch of the source assigns `response`, so the later
`if response is None` safety net is unreachable and the result is total. -/
def route (agents : List AgentCard) (llmConfigured : Bool) (env : DispatchEnv)
    (task : Task) : Message × Task :=
  match agents with
  | [] =>
    if llmConfigured then
      match env.llm with
      | .ok text =>
        ({ role := "agent", parts := [Part.text text] },
         { task with status := { task.status with state := .completed } })
      | .raised e =>
        ({ role := "agent",
           parts := [Part.text "Sorry, no agents are registered and I encountered an error trying to generate a specific response."] },
         { task with
             status := { task.status with
                           state := .error,
                           error := some { code := -32603,
                                           message := "Internal error during LLM fallback: " ++ e } } })
    else
      ({ role := "agent",
         parts := [Part.text "No agents are currently registered or available."] },
       { task with status := { task.status with state := .completed } })
  | _ :: _ =>
    match env.send with
    | .raised e =>
      ({ role := "agent",
         parts := [Part.text ("Failed to communicate with the registered agent: " ++ e)] },
       { task with
           status := { task.status with
                         state := .error,
                         error := some { code := -32603,
                                         message := "Internal error sending to agent: " ++ e } } })
    | .response tr =>
      match tr.error with
      | some err =>
        ({ role := "agent",
           parts := [Part.text ("Error communicating with agent: " ++ err.message)] },
         { task with status := { task.status with state := .error, error := some err } })
      | none =>
        match tr.result with
        | some task_result => interpretResult task_result task
        | none =>
          ({ role := "agent",
             parts := [Part.text "Agent processed the request but did not return a valid result structure."] },
           { task with status := { task.status with state := .completed } })

/-- What `process_message` leaves behind: the new manager state, the
response message it produced (as appended to the conversation, the event
log and the task history), and the final task it persisted. -/
structure DispatchResult where
  state : ManagerState
  response : Message
  task : Task
deriving Repr

/-- The task created for an inbound message (lines 115-124): fresh id,
the resolved conversation id, status SUBMITTED carrying the triggering
message, history = [message]. -/
def initTask (message : Message) (env : DispatchEnv) : Task :=
  { id := env.task_id,
    sessionId := dictGet message.metadata "conversation_id",
    status := { state := .submitted, message := some message },
    history := [message] }

/-- The body of `process_message` once `message.metadata['message_id']`
has been read successfully (lines 95-283). -/
def process_message_core (s : ManagerState) (message : Message) (env : DispatchEnv)
    (message_id : String) : DispatchResult :=
  let s1 := { s with messages := s.messages ++ [message],
                     pending_message_ids := s.pending_message_ids ++ [message_id] }
  let conversation_id := dictGet message.metadata "conversation_id"
  let conv := get_conversation s1.conversations conversation_id
  let s2 := { s1 with conversations := appendIfConv s1.conversations conv message }
  let hostEvent : Event :=
    { id := env.host_event_id, actor := "host", content := message,
      timestamp := env.host_timestamp }
  let s3 := { s2 with events := s2.events ++ [hostEvent] }
  let task0 : Task := initTask message env
  let s4 := { s3 with tasks := add_task s3.tasks task0,
                      task_map := dictSet s3.task_map message_id env.task_id }
  let rt := route s4.agents s4.llm env task0
  let response : Message :=
    { rt.1 with metadata := dictSet message.metadata "message_id" env.response_message_id }
  let s5 := { s4 with conversations := appendIfConv s4.conversations conv response }
  let agentEvent : Event :=
    { id := env.agent_event_id, actor := "agent", content := response,
      timestamp := env.agent_timestamp }
  let s6 := { s5 with
                events := s5.events ++ [agentEvent],
                pending_message_ids := s5.pending_message_ids.erase message_id }
  let task2 := { rt.2 with history := rt.2.history ++ [response] }
  let s7 := { s6 with tasks := update_task s6.tasks task2 }
  { state := s7, response := response, task := task2 }

/-- `process_message`: reading `message.metadata['message_id']` raises a
`KeyError` when the key is absent (`none` here); otherwise the body runs. -/
def process_message (s : ManagerState) (message : Message) (env : DispatchEnv) :
    Option DispatchResult :=
  (dictGet message.metadata "message_id").map (process_message_core s message env)

/-- `get_pending_messages` (lines 307-326), including its early return:
the `return rval` sits inside the `for` body, so at most the first
pending id is examined; the trailing `return self._pending_message_ids`
only runs when the pending list is empty, so the value it returns is the
empty list. -/
def get_pending_messages (s : ManagerState) : List (String × String) :=
  match s.pending_message_ids with
  | [] => []
  | message_id :: _ =>
    match dictGet s.task_map message_id with
    | none => [(message_id, "")]
    | some task_id =>
      match s.tasks.find? (fun t => t.id == task_id) with
      | none => [(message_id, "")]
      | some task =>
        match task.history.getLast? with
        | none => []
        | some last =>
          match last.parts with
          | [] => []
          | p :: _ =>
            if task.history.length = 1 then [(message_id, "Working...")]
            else
              [(message_id, match p with | .text t => t | _ => "Working...")]

/-- `"".join(address.split())`: splitting on runs of whitespace and
joining with the empty string removes exactly the whitespace characters. -/
def cleanAddress (a : String) : String :=
  String.mk (a.toList.filter (fun c => !c.isWhitespace))

/-- `address.startswith(("http://", "https://"))`. -/
def hasScheme (s : String) : Bool :=
  "http://".toList.isPrefixOf s.toList || "https://".toList.isPrefixOf s.toList

/-- `base_url.endswith('/')`. -/
def endsWithSlash (s : String) : Bool :=
  s.toList.getLast? == some '/'

/-- `base_url.rstrip('/')`. -/
def rstripSlashes (s : String) : String :=
  String.mk ((s.toList.reverse.dropWhile (fun c => c == '/')).reverse)

/-- Outcome of `requests.get(agent_card_url, timeout=10)` followed by
`raise_for_status()`, JSON decoding and `AgentCard(**data)` validation:
either a validated card, or one of the failure shapes the handlers at the
bottom of `get_agent_card` distinguish. -/
inductive FetchOutcome where
  | ok (card : AgentCard)
  /-- `requests.exceptions.Timeout`. -/
  | timeout
  /-- A `RequestException` raised by `raise_for_status()` after a
  response was received; carries `f"{status_code} {reason}"`. -/
  | httpError (statusLine : String)
  /-- A `RequestException` raised by `requests.get` itself: the handler
  then reads the unbound local `response` and raises in turn, so the
  caller still sees an exception. -/
  | connectError
  /-- `ValueError` from JSON decoding / card validation. -/
  | parseError
  /-- Any other exception. -/
  | otherError
deriving DecidableEq, Repr

/-- `utils/agent_card.py::get_agent_card`: address cleaning, scheme and
trailing-slash normalization, then the fetch; every failure shape raises
(`Except.error`), and on success a card with a falsy `url` is backfilled
with `base_url.rstrip('/')`. -/
def get_agent_card (remote_agent_address : String) (fetch : FetchOutcome) :
    Except String AgentCard :=
  let cleaned := cleanAddress remote_agent_address
  let base0 := if hasScheme cleaned then cleaned else "http://" ++ cleaned
  let base_url := if endsWithSlash base0 then base0 else base0 ++ "/"
  match fetch with
  | .ok card =>
    .ok (if card.url == "" then { card with url := rstripSlashes base_url } else card)
  | .timeout => .error ("Timeout connecting to agent at " ++ cleaned)
  | .httpError statusLine =>
    .error ("Cannot connect to agent as " ++ statusLine ++ " (" ++ cleaned ++ ")")
  | .connectError =>
    .error "UnboundLocalError: local variable response referenced before assignment"
  | .parseError => .error ("Could not parse agent card JSON from " ++ cleaned)
  | .otherError => .error ("Unexpected error getting agent card from " ++ cleaned)

/-- `register_agent` (lines 328-332): a failure of `get_agent_card`
propagates to the caller before `self._agents` is touched; on success a
still-falsy `url` is backfilled with the raw input address and the card
is appended to the directory.  The result pairs the manager state after
the call with the exception the caller sees (`none` on success). -/
def register_agent (s : ManagerState) (url : String) (fetch : FetchOutcome) :
    ManagerState × Option String :=
  match get_agent_card url fetch with
  | .error e => (s, some e)
  | .ok agent_data =>
    let agent_data :=
      if agent_data.url == "" then { agent_data with url := url } else agent_data
    ({ s with agents := s.agents ++ [agent_data] }, none)

/-! ## Helper lemmas -/

theorem forceAgentRole_eq (m : Message) :
    forceAgentRole m = { m with role := "agent" } := by
  cases m with
  | mk role parts metadata => by_cases h : role = "agent" <;> simp [forceAgentRole, h]

theorem update_task_idem (tasks : List Task) (task : Task) :
    update_task (update_task tasks task) task = update_task tasks task := by
  induction tasks with
  | nil => rfl
  | cons t ts ih =>
    by_cases h : (t.id == task.id) = true
    · simp [update_task, h]
    · simp [update_task, h, ih]

theorem update_task_not_found (tasks : List Task) (task : Task)
    (h : ∀ t ∈ tasks, t.id ≠ task.id) : update_task tasks task = tasks := by
  induction tasks with
  | nil => rfl
  | cons t ts ih =>
    have h1 : (t.id == task.id) = false := by
      simpa using h t (List.mem_cons_self t ts)
    simp [update_task, h1, ih fun x hx => h x (List.mem_cons_of_mem t hx)]

theorem mem_update_task (tasks : List Task) (task : Task)
    (h : ∃ t ∈ tasks, t.id = task.id) : task ∈ update_task tasks task := by
  induction tasks with
  | nil => simp at h
  | cons t ts ih =>
    by_cases h1 : (t.id == task.id) = true
    · simp [update_task, h1]
    · rcases h with ⟨u, hu, hid⟩
      rcases List.mem_cons.mp hu with rfl | hut
      · exact absurd (by simp [hid]) (fun hb => h1 hb)
      · simp only [update_task, h1, Bool.false_eq_true, if_false, List.mem_cons]
        exact Or.inr (ih ⟨u, hut, hid⟩)

/-- Every branch of the routing section only rewrites the task's status
and artifacts: its id and history survive unchanged. -/
theorem route_preserves_id_history (agents : List AgentCard) (llm : Bool)
    (env : DispatchEnv) (task : Task) :
    (route agents llm env task).2.id = task.id ∧
    (route agents llm env task).2.history = task.history := by
  unfold route interpretResult interpretNonInput
  constructor <;> (repeat' split) <;> rfl

/-! ## Claims -/

/-- C7: registering an agent at `example.com` whose discovery card has a
name but no url stores a descriptor whose url is the normalized input
address `http://example.com`. -/
theorem register_backfills_url :
    register_agent {} "example.com" (FetchOutcome.ok { name := "echo" }) =
      ({ agents := [{ name := "echo", url := "http://example.com" }] }, none) := by
  rfl

/-- C8: when discovery fails in any of its failure shapes, the failure
is raised to the caller of `register_agent` and the manager state — in
particular the agent directory — is unchanged. -/
theorem register_fails_leaves_directory (s : ManagerState) (url : String)
    (fetch : FetchOutcome) (h : ∀ c, fetch ≠ FetchOutcome.ok c) :
    (register_agent s url fetch).1 = s ∧ (register_agent s url fetch).2.isSome := by
  cases fetch with
  | ok c => exact absurd rfl (h c)
  | timeout => exact ⟨rfl, rfl⟩
  | httpError sl => exact ⟨rfl, rfl⟩
  | connectError => exact ⟨rfl, rfl⟩
  | parseError => exact ⟨rfl, rfl⟩
  | otherError => exact ⟨rfl, rfl⟩

theorem register_fails_leaves_directory_witness :
    (register_agent {} "example.com" FetchOutcome.timeout).1 = ({} : ManagerState) ∧
    (register_agent {} "example.com" FetchOutcome.timeout).2.isSome :=
  register_fails_leaves_directory {} "example.com" FetchOutcome.timeout
    (fun _ h => FetchOutcome.noConfusion h)

/-- C9: `update_task` is idempotent on the task registry, and when no
stored task has a matching id it is a no-op (no exception, no new
entry). -/
theorem update_task_idempotent_and_no_match (tasks : List Task) (task : Task) :
    update_task (update_task tasks task) task = update_task tasks task ∧
    ((∀ t ∈ tasks, t.id ≠ task.id) → update_task tasks task = tasks) :=
  ⟨update_task_idem tasks task, update_task_not_found tasks task⟩

def taskW9 : Task := { id := "t9", status := { state := .submitted } }

def tasksW9 : List Task := [{ id := "other", status := { state := .completed } }]

theorem update_task_idempotent_and_no_match_witness :
    (update_task (update_task tasksW9 taskW9) taskW9 = update_task tasksW9 taskW9) ∧
    update_task tasksW9 taskW9 = tasksW9 :=
  ⟨(update_task_idempotent_and_no_match tasksW9 taskW9).1,
   (update_task_idempotent_and_no_match tasksW9 taskW9).2 (by decide)⟩

/-- C3: an exception raised while communicating with the registered
agent is absorbed: `process_message` still returns normally with an
agent-role text response citing the failure, the task is moved to ERROR
and an internal error object with code -32603 is attached. -/
theorem agent_exception_absorbed (s : ManagerState) (msg : Message) (env : DispatchEnv)
    (mid e : String)
    (hmid : dictGet msg.metadata "message_id" = some mid)
    (hagents : s.agents ≠ [])
    (hsend : env.send = SendOutcome.raised e) :
    process_message s msg env = some (process_message_core s msg env mid) ∧
    (process_message_core s msg env mid).response.role = "agent" ∧
    (process_message_core s msg env mid).response.parts =
      [Part.text ("Failed to communicate with the registered agent: " ++ e)] ∧
    (process_message_core s msg env mid).task.status.state = TaskState.error ∧
    (process_message_core s msg env mid).task.status.error =
      some { code := -32603, message := "Internal error sending to agent: " ++ e } := by
  rcases List.exists_cons_of_ne_nil hagents with ⟨a, l, ha⟩
  refine ⟨by simp [process_message, hmid], ?_, ?_, ?_, ?_⟩ <;>
    simp [process_message_core, route, ha, hsend]

def msgW : Message := { role := "user", parts := [Part.text "hi"], metadata := [("message_id", "M")] }

def agentW : AgentCard := { name := "a", url := "http://a" }

def envW3 : DispatchEnv :=
  { task_id := "T", host_event_id := "E1", agent_event_id := "E2",
    response_message_id := "R", host_timestamp := 1, agent_timestamp := 2,
    send := SendOutcome.raised "boom", llm := LlmOutcome.ok "x" }

theorem agent_exception_absorbed_witness :
    process_message { agents := [agentW] } msgW envW3 =
      some (process_message_core { agents := [agentW] } msgW envW3 "M") ∧
    (process_message_core { agents := [agentW] } msgW envW3 "M").response.role = "agent" ∧
    (process_message_core { agents := [agentW] } msgW envW3 "M").response.parts =
      [Part.text ("Failed to communicate with the registered agent: " ++ "boom")] ∧
    (process_message_core { agents := [agentW] } msgW envW3 "M").task.status.state =
      TaskState.error ∧
    (process_message_core { agents := [agentW] } msgW envW3 "M").task.status.error =
      some { code := -32603, message := "Internal error sending to agent: " ++ "boom" } :=
  agent_exception_absorbed { agents := [agentW] } msgW envW3 "M" "boom"
    (by rfl) (by decide) (by rfl)

/-- C6: with no agents registered and no model client configured, the
response is the fixed "no agents available" agent-role text and the task
is marked COMPLETED. -/
theorem no_agents_no_llm_fixed_response (s : ManagerState) (msg : Message)
    (env : DispatchEnv) (mid : String)
    (hmid : dictGet msg.metadata "message_id" = some mid)
    (hagents : s.agents = [])
    (hllm : s.llm = false) :
    process_message s msg env = some (process_message_core s msg env mid) ∧
    (process_message_core s msg env mid).response =
      { role := "agent",
        parts := [Part.text "No agents are currently registered or available."],
        metadata := dictSet msg.metadata "message_id" env.response_message_id } ∧
    (process_message_core s msg env mid).task.status.state = TaskState.completed := by
  refine ⟨by simp [process_message, hmid], ?_, ?_⟩ <;>
    simp [process_message_core, route, hagents, hllm]

/-- The observable pieces of a dispatch, unfolded once: pending ids,
task registry, final task and final response. -/
theorem process_message_core_fields (s : ManagerState) (msg : Message)
    (env : DispatchEnv) (mid : String) :
    (process_message_core s msg env mid).state.pending_message_ids =
      (s.pending_message_ids ++ [mid]).erase mid ∧
    (process_message_core s msg env mid).state.tasks =
      update_task (add_task s.tasks (initTask msg env))
        (process_message_core s msg env mid).task ∧
    (process_message_core s msg env mid).task =
      { (route s.agents s.llm env (initTask msg env)).2 with
          history := (route s.agents s.llm env (initTask msg env)).2.history ++
            [(process_message_core s msg env mid).response] } ∧
    (process_message_core s msg env mid).response =
      { (route s.agents s.llm env (initTask msg env)).1 with
          metadata := dictSet msg.metadata "message_id" env.response_message_id } :=
  ⟨rfl, rfl, rfl, rfl⟩

/-- C1: a result in state INPUT_REQUIRED carrying a status message wins
over every other branch: the response is that status message with its
role forced to `agent`, the task stays INPUT_REQUIRED (not COMPLETED)
and the result's artifacts are copied onto the task — whatever the
result's history and artifacts are. -/
theorem input_required_branch_takes_precedence (s : ManagerState) (msg : Message)
    (env : DispatchEnv) (mid : String) (res : Task) (m : Message)
    (hmid : dictGet msg.metadata "message_id" = some mid)
    (hagents : s.agents ≠ [])
    (hsend : env.send = SendOutcome.response { error := none, result := some res })
    (hstate : res.status.state = TaskState.input_required)
    (hmsg : res.status.message = some m) :
    process_message s msg env = some (process_message_core s msg env mid) ∧
    (process_message_core s msg env mid).response =
      { m with role := "agent",
               metadata := dictSet msg.metadata "message_id" env.response_message_id } ∧
    (process_message_core s msg env mid).task.status.state = TaskState.input_required ∧
    (process_message_core s msg env mid).task.artifacts = res.artifacts := by
  rcases List.exists_cons_of_ne_nil hagents with ⟨a, l, ha⟩
  refine ⟨by simp [process_message, hmid], ?_, ?_, ?_⟩ <;>
    simp [process_message_core, route, interpretResult, ha, hsend, hstate, hmsg,
      forceAgentRole_eq]

def resW1 : Task :=
  { id := "X",
    status := { state := .input_required,
                message := some { role := "user", parts := [Part.text "need more"] } },
    history := [{ role := "user", parts := [Part.text "old"] }],
    artifacts := some [{ parts := [Part.text "art"] }] }

def envW1 : DispatchEnv :=
  { task_id := "T", host_event_id := "E1", agent_event_id := "E2",
    response_message_id := "R", host_timestamp := 1, agent_timestamp := 2,
    send := SendOutcome.response { result := some resW1 },
    llm := LlmOutcome.ok "x" }

theorem input_required_branch_takes_precedence_witness :
    process_message { agents := [agentW] } msgW envW1 =
      some (process_message_core { agents := [agentW] } msgW envW1 "M") ∧
    (process_message_core { agents := [agentW] } msgW envW1 "M").response =
      { role := "agent", parts := [Part.text "need more"],
        metadata := dictSet msgW.metadata "message_id" envW1.response_message_id } ∧
    (process_message_core { agents := [agentW] } msgW envW1 "M").task.status.state =
      TaskState.input_required ∧
    (process_message_core { agents := [agentW] } msgW envW1 "M").task.artifacts =
      some [{ parts := [Part.text "art"] }] :=
  input_required_branch_takes_precedence { agents := [agentW] } msgW envW1 "M"
    resW1 { role := "user", parts := [Part.text "need more"] }
    (by rfl) (by decide) (by rfl) (by rfl) (by rfl)

/-- C2: with no protocol error and the INPUT_REQUIRED branch not taken,
a non-empty history makes the last history entry the response, marks the
task COMPLETED and copies the result's artifacts onto the task. -/
theorem history_branch_completes_task (s : ManagerState) (msg : Message)
    (env : DispatchEnv) (mid : String) (res : Task) (last : Message)
    (hmid : dictGet msg.metadata "message_id" = some mid)
    (hagents : s.agents ≠ [])
    (hsend : env.send = SendOutcome.response { error := none, result := some res })
    (hni : res.status.state ≠ TaskState.input_required ∨ res.status.message = none)
    (hlast : res.history.getLast? = some last) :
    process_message s msg env = some (process_message_core s msg env mid) ∧
    (process_message_core s msg env mid).response =
      { last with metadata := dictSet msg.metadata "message_id" env.response_message_id } ∧
    (process_message_core s msg env mid).task.status.state = TaskState.completed ∧
    (process_message_core s msg env mid).task.artifacts = res.artifacts := by
  rcases List.exists_cons_of_ne_nil hagents with ⟨a, l, ha⟩
  have hIR : ∀ task : Task, interpretResult res task = interpretNonInput res task := by
    intro task
    unfold interpretResult
    rcases hni with h | h
    · rw [if_neg h]
    · by_cases hs : res.status.state = TaskState.input_required
      · rw [if_pos hs, h]
      · rw [if_neg hs]
  refine ⟨by simp [process_message, hmid], ?_, ?_, ?_⟩ <;>
    simp [process_message_core, route, ha, hsend, hIR, interpretNonInput, hlast]

def resW2 : Task :=
  { id := "X", status := { state := .completed },
    history := [{ role := "user", parts := [Part.text "h1"] },
                { role := "agent", parts := [Part.text "h2"] }],
    artifacts := some [{ parts := [Part.text "art"] }] }

def envW2 : DispatchEnv :=
  { task_id := "T", host_event_id := "E1", agent_event_id := "E2",
    response_message_id := "R", host_timestamp := 1, agent_timestamp := 2,
    send := SendOutcome.response { result := some resW2 },
    llm := LlmOutcome.ok "x" }

theorem history_branch_completes_task_witness :
    process_message { agents := [agentW] } msgW envW2 =
      some (process_message_core { agents := [agentW] } msgW envW2 "M") ∧
    (process_message_core { agents := [agentW] } msgW envW2 "M").response =
      { role := "agent", parts := [Part.text "h2"],
        metadata := dictSet msgW.metadata "message_id" envW2.response_message_id } ∧
    (process_message_core { agents := [agentW] } msgW envW2 "M").task.status.state =
      TaskState.completed ∧
    (process_message_core { agents := [agentW] } msgW envW2 "M").task.artifacts =
      some [{ parts := [Part.text "art"] }] :=
  history_branch_completes_task { agents := [agentW] } msgW envW2 "M"
    resW2 { role := "agent", parts := [Part.text "h2"] }
    (by rfl) (by decide) (by rfl) (by decide) (by rfl)

/-- C4: right after a dispatch the triggering message's id has left the
pending set (which is restored to its prior value), the task's history
is exactly [triggering message, response], and that task is stored in
the registry. -/
theorem pending_cleared_and_history_pair (s : ManagerState) (msg : Message)
    (env : DispatchEnv) (mid : String)
    (hmid : dictGet msg.metadata "message_id" = some mid)
    (hfresh : mid ∉ s.pending_message_ids) :
    process_message s msg env = some (process_message_core s msg env mid) ∧
    (process_message_core s msg env mid).state.pending_message_ids =
      s.pending_message_ids ∧
    mid ∉ (process_message_core s msg env mid).state.pending_message_ids ∧
    (process_message_core s msg env mid).task.history =
      [msg, (process_message_core s msg env mid).response] ∧
    (process_message_core s msg env mid).task ∈
      (process_message_core s msg env mid).state.tasks := by
  obtain ⟨hpend0, htasks, htask, _⟩ := process_message_core_fields s msg env mid
  have hrt := route_preserves_id_history s.agents s.llm env (initTask msg env)
  have hp : (process_message_core s msg env mid).state.pending_message_ids =
      s.pending_message_ids := by
    rw [hpend0, List.erase_append_right _ hfresh]
    simp
  refine ⟨by simp [process_message, hmid], hp, hp ▸ hfresh, ?_, ?_⟩
  · simp only [htask, hrt.2]
    rfl
  · rw [htasks]
    apply mem_update_task
    refine ⟨initTask msg env, by simp [add_task], ?_⟩
    simp only [htask]
    simpa using hrt.1.symm

def envW4 : DispatchEnv :=
  { task_id := "T", host_event_id := "E1", agent_event_id := "E2",
    response_message_id := "R", host_timestamp := 1, agent_timestamp := 2,
    send := SendOutcome.response {}, llm := LlmOutcome.ok "x" }

theorem pending_cleared_and_history_pair_witness :
    process_message {} msgW envW4 = some (process_message_core {} msgW envW4 "M") ∧
    (process_message_core {} msgW envW4 "M").state.pending_message_ids =
      ManagerState.pending_message_ids {} ∧
    "M" ∉ (process_message_core {} msgW envW4 "M").state.pending_message_ids ∧
    (process_message_core {} msgW envW4 "M").task.history =
      [msgW, (process_message_core {} msgW envW4 "M").response] ∧
    (process_message_core {} msgW envW4 "M").task ∈
      (process_message_core {} msgW envW4 "M").state.tasks :=
  pending_cleared_and_history_pair {} msgW envW4 "M" (by rfl) (by decide)

theorem no_agents_no_llm_fixed_response_witness :
    process_message {} msgW envW3 = some (process_message_core {} msgW envW3 "M") ∧
    (process_message_core {} msgW envW3 "M").response =
      { role := "agent",
        parts := [Part.text "No agents are currently registered or available."],
        metadata := dictSet msgW.metadata "message_id" envW3.response_message_id } ∧
    (process_message_core {} msgW envW3 "M").task.status.state = TaskState.completed :=
  no_agents_no_llm_fixed_response {} msgW envW3 "M" (by rfl) (by rfl) (by rfl)

/-- C5: with a non-empty pending set, the early return inside the loop
of `get_pending_messages` means every returned entry (there is at most
one) belongs to the first pending id; no later pending id ever gets an
entry. -/
theorem pending_summary_first_id_only (s : ManagerState) (mid : String)
    (rest : List String) (hpend : s.pending_message_ids = mid :: rest) :
    ((get_pending_messages s).all fun p => p.1 == mid) = true ∧
    (get_pending_messages s).length ≤ 1 := by
  unfold get_pending_messages
  rw [hpend]
  constructor <;> (repeat' split) <;> simp_all

theorem pending_summary_first_id_only_witness :
    ((get_pending_messages { pending_message_ids := ["m1", "m2"] }).all
      fun p => p.1 == "m1") = true ∧
    (get_pending_messages { pending_message_ids := ["m1", "m2"] }).length ≤ 1 :=
  pending_summary_first_id_only { pending_message_ids := ["m1", "m2"] } "m1" ["m2"] (by rfl)

/-- C10: when the first pending id is bound to an existing task whose
last history entry has no parts, the loop body appends nothing before
the early return: the summary is empty, with no entry at all for that
still-pending message. -/
theorem pending_summary_empty_parts_silent (s : ManagerState) (mid : String)
    (rest : List String) (tid : String) (task : Task) (last : Message)
    (hpend : s.pending_message_ids = mid :: rest)
    (hmap : dictGet s.task_map mid = some tid)
    (htask : s.tasks.find? (fun t => t.id == tid) = some task)
    (hlast : task.history.getLast? = some last)
    (hparts : last.parts = []) :
    get_pending_messages s = [] := by
  simp only [get_pending_messages, hpend, hmap, htask, hlast, hparts]

def taskW10 : Task :=
  { id := "t1", status := { state := .submitted },
    history := [{ role := "user", parts := [] }] }

def stateW10 : ManagerState :=
  { pending_message_ids := ["m1"], task_map := [("m1", "t1")], tasks := [taskW10] }

theorem pending_summary_empty_parts_silent_witness :
    get_pending_messages stateW10 = [] :=
  pending_summary_empty_parts_silent stateW10 "m1" [] "t1" taskW10
    { role := "user", parts := [] } (by rfl) (by rfl) (by rfl) (by rfl) (by rfl)

end A2A
